import Mathlib

/-!
Shallow embedding of the viva-session engine of the assigncheck backend:
the endpoints in `backend/app/api/api_v1/endpoints/viva.py`, the adapter in
`backend/app/services/ai_service.py`, the schemas in
`backend/app/schemas/viva.py` and the policy constants in
`backend/app/core/config.py`.

Scores are modelled as rationals (the source uses Python floats on a 0-1
scale), timestamps as abstract natural numbers, and database rows as fields
of a `VivaSession` structure.  Upstream (Azure OpenAI) outcomes are passed
in explicitly: `none` stands for any transport failure, timeout or
unparsable reply (the code paths where `openai.ChatCompletion.create` or
`json.loads` raises), `some payload` for a successfully parsed JSON object
whose individual keys may still be absent (`Option` fields).
-/

namespace AssignCheck

/-- Session lifecycle states.  The model file
`backend/app/models/viva_session.py` is not part of the sources; these are
the three members of `VivaSessionStatus` referenced by the endpoint code
(`SCHEDULED`, `IN_PROGRESS`, `COMPLETED`). -/
inductive VivaSessionStatus where
  | scheduled
  | in_progress
  | completed
deriving DecidableEq, Repr

/-- One question/response pair (row of the `viva_responses` table), with the
fields read and written by the endpoint code.  `response_text = none` is how
the code identifies the pending turn (`VivaResponse.response_text.is_(None)`). -/
structure VivaTurn where
  question_text : String
  order_index : Nat
  response_text : Option String := none
  response_audio_path : Option String := none
  response_timestamp : Option ℚ := none
  response_duration : Option ℚ := none
  confidence_score : Option ℚ := none
  accuracy_score : Option ℚ := none
  completeness_score : Option ℚ := none
  ai_feedback : Option String := none
  score : Option ℚ := none
  max_score : Option ℚ := none
deriving DecidableEq, Repr

/-- Request body of `POST /sessions/{id}/respond` (`VivaResponseCreate` in
`schemas/viva.py`).  Every field except `question_text` is `Optional`. -/
structure VivaResponseCreate where
  question_text : String
  response_text : Option String := none
  response_audio_path : Option String := none
  question_timestamp : Option ℚ := none
  response_timestamp : Option ℚ := none
  response_duration : Option ℚ := none
deriving DecidableEq, Repr

/-- Request body of `PUT /sessions/{id}` (`VivaSessionUpdate` in
`schemas/viva.py`); unset fields are excluded from the update
(`dict(exclude_unset=True)` is modelled by `none`). -/
structure VivaSessionUpdate where
  status : Option VivaSessionStatus := none
  video_file_path : Option String := none
  audio_file_path : Option String := none
  transcript_file_path : Option String := none
  duration_seconds : Option Nat := none
deriving DecidableEq, Repr

/-- One viva session row with the fields the endpoint code reads and
writes.  Defaults follow the schema (`questions_asked = 0`,
`questions_answered = 0`, optional fields unset). -/
structure VivaSession where
  student_id : Nat
  status : VivaSessionStatus := .scheduled
  questions_asked : Nat := 0
  questions_answered : Nat := 0
  started_at : Option Nat := none
  completed_at : Option Nat := none
  total_score : Option ℚ := none
  max_possible_score : Option ℚ := none
  overall_confidence_score : Option ℚ := none
  communication_score : Option ℚ := none
  technical_accuracy_score : Option ℚ := none
  video_file_path : Option String := none
  audio_file_path : Option String := none
  transcript_file_path : Option String := none
  duration_seconds : Option Nat := none
  responses : List VivaTurn := []
deriving DecidableEq, Repr

/-- HTTP error outcomes raised by the endpoints (`HTTPException`). -/
inductive ApiError where
  | notFound
  | forbidden
  | badRequest
  | internalError
deriving DecidableEq, Repr

/-- `Settings.MAX_VIVA_QUESTIONS` default in `core/config.py`. -/
def MAX_VIVA_QUESTIONS : Nat := 10

/-- `Settings.MIN_VIVA_QUESTIONS` default in `core/config.py`. -/
def MIN_VIVA_QUESTIONS : Nat := 3

/-- The hardcoded continuation bound in `submit_viva_response`
(`if session.questions_asked < 5:  # Configurable limit`). -/
def HARDCODED_QUESTION_LIMIT : Nat := 5

/-! ### Client Adapter (`services/ai_service.py`) -/

/-- A parsed JSON object returned by the upstream model for question
generation; each key may be absent (a missing key raises `KeyError` in the
adapter, which its `except` clause turns into the fallback). -/
structure GenPayload where
  question : Option String := none
  expected_keywords : Option (List String) := none
  follow_up_questions : Option (List String) := none
  scoring_criteria : Option (List (String × String)) := none
deriving DecidableEq, Repr

/-- `AIQuestionResponse` in `schemas/viva.py`. -/
structure AIQuestionResponse where
  question : String
  expected_keywords : List String
  follow_up_questions : List String
  scoring_criteria : List (String × String)
deriving DecidableEq, Repr

/-- A parsed JSON object returned by the upstream model for response
evaluation.  `AIService.evaluate_viva_response` returns this dict as-is;
keys may be absent (`dict.get` then yields `None`). -/
structure EvalPayload where
  accuracy_score : Option ℚ := none
  completeness_score : Option ℚ := none
  confidence_score : Option ℚ := none
  overall_score : Option ℚ := none
  feedback : Option String := none
deriving DecidableEq, Repr

/-- The deterministic fallback question built in the `except` clause of
`AIService.generate_viva_question`. -/
def fallbackQuestion : AIQuestionResponse :=
  { question := "Can you explain the main concepts from your assignment in your own words?"
    expected_keywords := ["concept", "understanding", "explanation"]
    follow_up_questions := ["Can you provide an example?", "How would you apply this?"]
    scoring_criteria :=
      [("excellent", "Clear explanation with examples and applications"),
       ("good", "Good understanding with minor gaps"),
       ("satisfactory", "Basic understanding demonstrated"),
       ("needs_improvement", "Limited understanding shown")] }

/-- The deterministic fallback evaluation built in the `except` clause of
`AIService.evaluate_viva_response`: all four scores are the neutral 0.7. -/
def fallbackEvaluation : EvalPayload :=
  { accuracy_score := some (7/10)
    completeness_score := some (7/10)
    confidence_score := some (7/10)
    overall_score := some (7/10)
    feedback := some "Response received and recorded. Manual review recommended." }

/-- `AIService.generate_viva_question`.  A transport/parse failure
(`upstream = none`) or a missing key in the parsed payload (`KeyError` on
`question_data[...]`) is caught by the blanket `except` and replaced by the
fallback question; otherwise the payload is packaged unchanged. -/
def generate_viva_question (upstream : Option GenPayload) : AIQuestionResponse :=
  match upstream with
  | none => fallbackQuestion
  | some p =>
    match p.question, p.expected_keywords, p.follow_up_questions, p.scoring_criteria with
    | some q, some ks, some fs, some sc =>
      { question := q, expected_keywords := ks, follow_up_questions := fs,
        scoring_criteria := sc }
    | _, _, _, _ => fallbackQuestion

/-- `AIService.evaluate_viva_response`.  On a transport/parse failure the
fallback evaluation is returned; a successfully parsed payload is returned
as-is, with no validation of key presence or score ranges. -/
def evaluate_viva_response (upstream : Option EvalPayload) : EvalPayload :=
  match upstream with
  | none => fallbackEvaluation
  | some p => p

/-- Decides whether the generation upstream outcome is one the adapter
degrades to the fallback: transport failure, timeout, or a payload with a
required key missing. -/
def genUpstreamFailed (upstream : Option GenPayload) : Bool :=
  match upstream with
  | none => true
  | some p =>
    p.question.isNone || p.expected_keywords.isNone ||
      p.follow_up_questions.isNone || p.scoring_criteria.isNone

/-! ### Turn Ledger helpers -/

/-- Number of pending turns (turns whose `response_text` is unset). -/
def countPending (ts : List VivaTurn) : Nat :=
  (ts.filter fun t => t.response_text.isNone).length

/-- The pending turn the code answers: the query filters
`response_text IS NULL` and orders by `order_index` descending, taking the
first row.  Engine-issued turns are appended with strictly increasing
`order_index`, so this is the last pending element of the list; we return
its position together with the turn. -/
def findLastPending : List VivaTurn → Option (Nat × VivaTurn)
  | [] => none
  | t :: ts =>
    match findLastPending ts with
    | some (i, u) => some (i + 1, u)
    | none => if t.response_text.isNone then some (0, t) else none

/-- The mutation `submit_viva_response` performs on the pending turn: copy
the response payload in, then record the adapter evaluation; the raw score
is `overall_score` (defaulting to 0 when absent) converted to a 10-point
scale, with `max_score = 10`. -/
def finalizeTurn (rd : VivaResponseCreate) (ev : EvalPayload) (t : VivaTurn) : VivaTurn :=
  { t with
    response_text := rd.response_text
    response_audio_path := rd.response_audio_path
    response_timestamp := rd.response_timestamp
    response_duration := rd.response_duration
    confidence_score := ev.confidence_score
    accuracy_score := ev.accuracy_score
    completeness_score := ev.completeness_score
    ai_feedback := ev.feedback
    score := some ((ev.overall_score.getD 0) * 10)
    max_score := some 10 }

/-- A freshly issued pending turn. -/
def newPendingTurn (q : String) (idx : Nat) : VivaTurn :=
  { question_text := q, order_index := idx }

/-! ### Scoring Aggregator (inline in `submit_viva_response`, lines 387-398) -/

/-- `total_score = sum(r.score or 0 for r in session.responses if r.score)`:
the generator filters on Python truthiness of `r.score` (skipping `None`
and `0`) and sums the scores. -/
def total_score_calc (ts : List VivaTurn) : ℚ :=
  ((ts.filter fun r => match r.score with | none => false | some v => v ≠ 0).map
    fun r => r.score.getD 0).sum

/-- `max_possible = sum(r.max_score or 0 for r in session.responses if r.max_score)`. -/
def max_possible_calc (ts : List VivaTurn) : ℚ :=
  ((ts.filter fun r => match r.max_score with | none => false | some v => v ≠ 0).map
    fun r => r.max_score.getD 0).sum

/-- `sum(r.confidence_score or 0 for r in session.responses) / len(session.responses)`. -/
def confidence_mean (ts : List VivaTurn) : ℚ :=
  (ts.map fun r => r.confidence_score.getD 0).sum / ts.length

/-- `sum(r.accuracy_score or 0 for r in session.responses) / len(session.responses)`. -/
def accuracy_mean (ts : List VivaTurn) : ℚ :=
  (ts.map fun r => r.accuracy_score.getD 0).sum / ts.length

/-- The session-completion block of `submit_viva_response` (lines 382-399):
set `completed` status and timestamp, store `total_score` and
`max_possible_score` unconditionally, and store the three per-dimension
averages only when the turn list is non-empty (`if session.responses:`). -/
def completeSession (s : VivaSession) (now : Nat) : VivaSession :=
  let base := { s with
    status := VivaSessionStatus.completed
    completed_at := some now
    total_score := some (total_score_calc s.responses)
    max_possible_score := some (max_possible_calc s.responses) }
  if s.responses.isEmpty then base
  else
    { base with
      overall_confidence_score := some (confidence_mean s.responses)
      communication_score := some (confidence_mean s.responses)
      technical_accuracy_score := some (accuracy_mean s.responses) }

/-! ### Session State Machine (endpoints in `viva.py`) -/

/-- A session as created by `create_viva_session`: scheduled, zero
counters, no turns. -/
def freshSession (student : Nat) : VivaSession :=
  { student_id := student }

/-- `POST /sessions/{id}/start` (`start_viva_session`), for a session that
exists (`NotFound` is raised before the session is in hand and is not
modelled on this per-session operation).  Checks ownership and the
`scheduled` precondition, transitions to `in_progress`, sets `started_at`,
asks the adapter for the first question (the adapter never raises: its
failure is absorbed into `fallbackQuestion`), appends it as pending Turn 1
and sets `questions_asked = 1`.  Returns the updated session and the first
question text. -/
def start_viva_session (s : VivaSession) (actor : Nat) (upstream : Option GenPayload)
    (now : Nat) : Except ApiError (VivaSession × String) :=
  if s.student_id ≠ actor then .error .forbidden
  else if s.status ≠ .scheduled then .error .badRequest
  else
    let ai := generate_viva_question upstream
    let s2 := { s with
      status := VivaSessionStatus.in_progress
      started_at := some now
      questions_asked := 1
      responses := s.responses ++ [newPendingTurn ai.question 1] }
    .ok (s2, ai.question)

/-- `POST /sessions/{id}/respond` (`submit_viva_response`).  Checks
ownership and the `in_progress` precondition, finds the pending turn
(failing with 400 when none exists), attaches the response payload,
increments `questions_answered`, records the adapter evaluation (absorbed
into `fallbackEvaluation` on upstream failure, never an error), then
decides continuation: when `questions_asked < 5` and the next-question
block does not raise (`nextGenFails` models any exception inside that
`try`, whose `except: pass` falls through to completion), a new pending
turn is appended and `questions_asked` incremented; otherwise the session
is completed and aggregated.  Returns the session and the
`session_complete` flag. -/
def submit_viva_response (s : VivaSession) (actor : Nat) (rd : VivaResponseCreate)
    (evalUpstream : Option EvalPayload) (genUpstream : Option GenPayload)
    (nextGenFails : Bool) (now : Nat) : Except ApiError (VivaSession × Bool) :=
  if s.student_id ≠ actor then .error .forbidden
  else if s.status ≠ .in_progress then .error .badRequest
  else
    match findLastPending s.responses with
    | none => .error .badRequest
    | some (i, t) =>
      let ev := evaluate_viva_response evalUpstream
      let s1 := { s with
        responses := s.responses.set i (finalizeTurn rd ev t)
        questions_answered := s.questions_answered + 1 }
      if s1.questions_asked < HARDCODED_QUESTION_LIMIT && !nextGenFails then
        let ai := generate_viva_question genUpstream
        let s2 := { s1 with
          responses := s1.responses ++ [newPendingTurn ai.question (s1.questions_asked + 1)]
          questions_asked := s1.questions_asked + 1 }
        .ok (s2, false)
      else
        .ok (completeSession s1 now, true)

/-- Caller roles relevant to `update_viva_session`'s permission check. -/
inductive Role where
  | student
  | teacher
  | admin
deriving DecidableEq, Repr

/-- `PUT /sessions/{id}` (`update_viva_session`).  Students may only update
their own sessions; every supplied field is copied onto the session with
`setattr`, with no validation of the status transition; when the supplied
status is `in_progress` (resp. `completed`) and the corresponding timestamp
is unset, it is set. -/
def update_viva_session (s : VivaSession) (role : Role) (actor : Nat)
    (upd : VivaSessionUpdate) (now : Nat) : Except ApiError VivaSession :=
  if role = .student ∧ s.student_id ≠ actor then .error .forbidden
  else
    let s1 := { s with
      status := upd.status.getD s.status
      video_file_path := upd.video_file_path <|> s.video_file_path
      audio_file_path := upd.audio_file_path <|> s.audio_file_path
      transcript_file_path := upd.transcript_file_path <|> s.transcript_file_path
      duration_seconds := upd.duration_seconds <|> s.duration_seconds }
    let s2 :=
      match upd.status with
      | some VivaSessionStatus.in_progress =>
        if s1.started_at.isNone then { s1 with started_at := some now } else s1
      | some VivaSessionStatus.completed =>
        if s1.completed_at.isNone then { s1 with completed_at := some now } else s1
      | _ => s1
    .ok s2

/-! ### Reachability by engine operations -/

/-- States reachable from a fresh session by any sequence of successful
`Start` and `SubmitResponse` operations (the operations named by the
`answered ≤ asked` property). -/
inductive Reachable : VivaSession → Prop where
  | init (student : Nat) : Reachable (freshSession student)
  | start {s s2 : VivaSession} {actor now : Nat} {up : Option GenPayload} {q : String} :
      Reachable s → start_viva_session s actor up now = .ok (s2, q) → Reachable s2
  | submit {s s2 : VivaSession} {actor now : Nat} {rd : VivaResponseCreate}
      {ev : Option EvalPayload} {gen : Option GenPayload} {ngf : Bool} {done : Bool} :
      Reachable s → submit_viva_response s actor rd ev gen ngf now = .ok (s2, done) →
      Reachable s2

/-- States reachable when every submitted response actually carries text
(`response_text` is not null in the request body). -/
inductive ReachableGood : VivaSession → Prop where
  | init (student : Nat) : ReachableGood (freshSession student)
  | start {s s2 : VivaSession} {actor now : Nat} {up : Option GenPayload} {q : String} :
      ReachableGood s → start_viva_session s actor up now = .ok (s2, q) → ReachableGood s2
  | submit {s s2 : VivaSession} {actor now : Nat} {rd : VivaResponseCreate}
      {ev : Option EvalPayload} {gen : Option GenPayload} {ngf : Bool} {done : Bool} :
      ReachableGood s → rd.response_text.isSome →
      submit_viva_response s actor rd ev gen ngf now = .ok (s2, done) →
      ReachableGood s2

/-- Rank of a lifecycle state along scheduled → in_progress → completed. -/
def statusRank : VivaSessionStatus → Nat
  | .scheduled => 0
  | .in_progress => 1
  | .completed => 2

/-! ### Concrete scenario material -/

/-- A well-formed upstream generation payload (every key present): what a
healthy provider returns. -/
def healthyGenPayload : GenPayload :=
  { question := some "Walk me through your approach."
    expected_keywords := some ["approach"]
    follow_up_questions := some ["Why does that work?"]
    scoring_criteria := some [("excellent", "full detail")] }

/-- A well-formed upstream evaluation payload with all scores in [0,1]. -/
def healthyEvalPayload : EvalPayload :=
  { accuracy_score := some (4/5)
    completeness_score := some (4/5)
    confidence_score := some (4/5)
    overall_score := some (4/5)
    feedback := some "solid" }

/-- A response body carrying actual text. -/
def demoAnswer : VivaResponseCreate :=
  { question_text := "", response_text := some "my answer" }

/-- A response body whose `response_text` is null, which the request schema
(`VivaResponseCreate.response_text: Optional[str] = None`) accepts. -/
def nullAnswer : VivaResponseCreate :=
  { question_text := "" }

/-- Runs `n` SubmitResponse calls by student 1, all with healthy adapter
results and a textual answer. -/
def submitHealthyN : Nat → VivaSession → Except ApiError (VivaSession × Bool)
  | 0, s => .ok (s, false)
  | n + 1, s =>
    match submit_viva_response s 1 demoAnswer (some healthyEvalPayload)
        (some healthyGenPayload) false 0 with
    | .ok (s2, _) => submitHealthyN n s2
    | .error e => .error e

/-- Start a fresh session and answer five questions, the adapter healthy
throughout. -/
def demoHealthyRun : Except ApiError (VivaSession × Bool) :=
  match start_viva_session (freshSession 1) 1 (some healthyGenPayload) 0 with
  | .ok (s, _) => submitHealthyN 5 s
  | .error e => .error e

/-- One further SubmitResponse after `demoHealthyRun`, the adapter still
healthy. -/
def demoHealthyRunThenSubmit : Except ApiError (VivaSession × Bool) :=
  match demoHealthyRun with
  | .ok (s, _) =>
    submit_viva_response s 1 demoAnswer (some healthyEvalPayload)
      (some healthyGenPayload) false 0
  | .error e => .error e

/-- Start a fresh session, then submit a null-text response. -/
def nullAnswerRun : Except ApiError (VivaSession × Bool) :=
  match start_viva_session (freshSession 1) 1 (some healthyGenPayload) 0 with
  | .ok (s, _) =>
    submit_viva_response s 1 nullAnswer (some healthyEvalPayload)
      (some healthyGenPayload) false 0
  | .error e => .error e

/-- An upstream evaluation payload that parses but is malformed by the
declared scale: every score present yet far outside [0,1]. -/
def malformedEvalPayload : EvalPayload :=
  { accuracy_score := some 5
    completeness_score := some 5
    confidence_score := some 5
    overall_score := some 5
    feedback := some "garbled" }

/-- A finalized two-turn ledger with scores 7/10 and 8/10. -/
def exampleTurns : List VivaTurn :=
  [{ question_text := "Q1", order_index := 1, response_text := some "A1",
     score := some 7, max_score := some 10 },
   { question_text := "Q2", order_index := 2, response_text := some "A2",
     score := some 8, max_score := some 10 }]

/-! ### Helper lemmas -/

lemma gen_failed_fallback (up : Option GenPayload) (h : genUpstreamFailed up = true) :
    generate_viva_question up = fallbackQuestion := by
  match up with
  | none => rfl
  | some p =>
    rcases p with ⟨q, ks, fs, sc⟩
    cases q <;> cases ks <;> cases fs <;> cases sc <;>
      simp_all [genUpstreamFailed, generate_viva_question]

lemma total_score_calc_cons (t : VivaTurn) (ts : List VivaTurn) :
    total_score_calc (t :: ts) = t.score.getD 0 + total_score_calc ts := by
  unfold total_score_calc
  rcases h : t.score with _ | v
  · simp [List.filter_cons, h]
  · by_cases hv : v = 0 <;> simp [List.filter_cons, h, hv]

lemma max_possible_calc_cons (t : VivaTurn) (ts : List VivaTurn) :
    max_possible_calc (t :: ts) = t.max_score.getD 0 + max_possible_calc ts := by
  unfold max_possible_calc
  rcases h : t.max_score with _ | v
  · simp [List.filter_cons, h]
  · by_cases hv : v = 0 <;> simp [List.filter_cons, h, hv]

lemma completeSession_status (s : VivaSession) (now : Nat) :
    (completeSession s now).status = .completed := by
  unfold completeSession; split <;> rfl

lemma completeSession_responses (s : VivaSession) (now : Nat) :
    (completeSession s now).responses = s.responses := by
  unfold completeSession; split <;> rfl

lemma completeSession_questions_asked (s : VivaSession) (now : Nat) :
    (completeSession s now).questions_asked = s.questions_asked := by
  unfold completeSession; split <;> rfl

lemma completeSession_questions_answered (s : VivaSession) (now : Nat) :
    (completeSession s now).questions_answered = s.questions_answered := by
  unfold completeSession; split <;> rfl

lemma findLastPending_spec (ts : List VivaTurn) (i : Nat) (t : VivaTurn)
    (h : findLastPending ts = some (i, t)) :
    ts[i]? = some t ∧ t.response_text = none := by
  induction ts generalizing i with
  | nil => simp [findLastPending] at h
  | cons a as ih =>
    unfold findLastPending at h
    rcases hrec : findLastPending as with _ | ⟨j, u⟩
    · rw [hrec] at h
      by_cases hp : a.response_text.isNone
      · simp [hp] at h
        obtain ⟨hi, ht⟩ := h
        subst hi; subst ht
        exact ⟨by simp, Option.isNone_iff_eq_none.mp hp⟩
      · simp [hp] at h
    · rw [hrec] at h
      simp at h
      obtain ⟨hi, ht⟩ := h
      subst ht
      obtain ⟨hget, hpend⟩ := ih j hrec
      cases i with
      | zero => omega
      | succ n =>
        have hn : n = j := by omega
        subst hn
        exact ⟨by simpa using hget, hpend⟩

lemma findLastPending_lt_length (ts : List VivaTurn) (i : Nat) (t : VivaTurn)
    (h : findLastPending ts = some (i, t)) : i < ts.length := by
  have := (findLastPending_spec ts i t h).1
  exact List.getElem?_eq_some_iff.mp (by simpa using this) |>.1

lemma countPending_cons (a : VivaTurn) (as : List VivaTurn) :
    countPending (a :: as) =
      (if a.response_text.isNone then 1 else 0) + countPending as := by
  unfold countPending
  rw [List.filter_cons]
  by_cases hp : a.response_text.isNone
  · simp only [hp, if_true, List.length_cons]
    omega
  · simp only [hp, if_false, Bool.false_eq_true, List.length_cons]
    omega

lemma countPending_append (ts us : List VivaTurn) :
    countPending (ts ++ us) = countPending ts + countPending us := by
  unfold countPending
  rw [List.filter_append, List.length_append]

lemma countPending_pos_of_findLastPending (ts : List VivaTurn) (i : Nat) (t : VivaTurn)
    (h : findLastPending ts = some (i, t)) : 1 ≤ countPending ts := by
  obtain ⟨hget, hpend⟩ := findLastPending_spec ts i t h
  have hmem : t ∈ ts := List.getElem?_mem hget
  have hf : t ∈ ts.filter fun u => u.response_text.isNone :=
    List.mem_filter.mpr ⟨hmem, by simp [hpend]⟩
  have hlen := List.length_pos.mpr (List.ne_nil_of_mem hf)
  unfold countPending
  omega

lemma countPending_set_answered (ts : List VivaTurn) (i : Nat) (t u : VivaTurn)
    (hget : ts[i]? = some t) (hpend : t.response_text = none)
    (hu : u.response_text.isSome) :
    countPending (ts.set i u) + 1 = countPending ts := by
  induction ts generalizing i with
  | nil => simp at hget
  | cons a as ih =>
    cases i with
    | zero =>
      simp at hget
      subst hget
      rw [List.set_cons_zero, countPending_cons, countPending_cons, hpend]
      rcases hv : u.response_text with _ | v
      · rw [hv] at hu; simp at hu
      · simp [hv]
        omega
    | succ n =>
      rw [List.set_cons_succ, countPending_cons, countPending_cons]
      have := ih n (by simpa using hget)
      omega

lemma submit_answered_turn_ne_pending (ts : List VivaTurn) (i j : Nat) (t u : VivaTurn)
    (hget : ts[i]? = some t) (hsome : t.response_text.isSome)
    (hfind : findLastPending ts = some (j, u)) : i ≠ j := by
  intro hh
  subst hh
  obtain ⟨hgetj, hpendj⟩ := findLastPending_spec ts i u hfind
  rw [hget] at hgetj
  injection hgetj with hh2
  subst hh2
  rw [hpendj] at hsome
  simp at hsome

/-- Successful `start_viva_session` computed explicitly from its
preconditions. -/
lemma start_eq_of_scheduled {s : VivaSession} {actor : Nat} (up : Option GenPayload)
    (now : Nat) (hown : s.student_id = actor) (hsched : s.status = .scheduled) :
    start_viva_session s actor up now =
      .ok ({ s with
        status := VivaSessionStatus.in_progress
        started_at := some now
        questions_asked := 1
        responses := s.responses ++
          [newPendingTurn (generate_viva_question up).question 1] },
        (generate_viva_question up).question) := by
  unfold start_viva_session
  rw [if_neg (by simp [hown]), if_neg (by simp [hsched])]

/-- Successful `submit_viva_response` computed explicitly from its
preconditions: either a continuation with a fresh pending turn, or
completion with aggregation. -/
lemma submit_eq_of_pending {s : VivaSession} {actor : Nat} (rd : VivaResponseCreate)
    (ev : Option EvalPayload) (gen : Option GenPayload) (ngf : Bool) (now : Nat)
    {i : Nat} {t : VivaTurn}
    (hown : s.student_id = actor) (hprog : s.status = .in_progress)
    (hfind : findLastPending s.responses = some (i, t)) :
    submit_viva_response s actor rd ev gen ngf now =
      if s.questions_asked < HARDCODED_QUESTION_LIMIT ∧ ngf = false then
        .ok ({ s with
          responses := (s.responses.set i (finalizeTurn rd (evaluate_viva_response ev) t)) ++
            [newPendingTurn (generate_viva_question gen).question (s.questions_asked + 1)]
          questions_answered := s.questions_answered + 1
          questions_asked := s.questions_asked + 1 }, false)
      else
        .ok (completeSession { s with
          responses := s.responses.set i (finalizeTurn rd (evaluate_viva_response ev) t)
          questions_answered := s.questions_answered + 1 } now, true) := by
  unfold submit_viva_response
  rw [if_neg (by simp [hown]), if_neg (by simp [hprog]), hfind]
  by_cases hlt : s.questions_asked < HARDCODED_QUESTION_LIMIT
  · cases ngf with
    | false =>
      rw [if_pos ⟨hlt, rfl⟩]
      simp [hlt]
    | true =>
      rw [if_neg (by simp)]
      simp [hlt]
  · rw [if_neg (by simp [hlt])]
    simp [hlt]

/-- Everything a successful `submit_viva_response` tells about its inputs
and output. -/
lemma submit_ok_inv {s s2 : VivaSession} {actor now : Nat} {rd : VivaResponseCreate}
    {ev : Option EvalPayload} {gen : Option GenPayload} {ngf done : Bool}
    (h : submit_viva_response s actor rd ev gen ngf now = .ok (s2, done)) :
    s.student_id = actor ∧ s.status = .in_progress ∧
    ∃ i t, findLastPending s.responses = some (i, t) ∧
      ((s.questions_asked < HARDCODED_QUESTION_LIMIT ∧ ngf = false ∧ done = false ∧
        s2 = { s with
          responses := (s.responses.set i (finalizeTurn rd (evaluate_viva_response ev) t)) ++
            [newPendingTurn (generate_viva_question gen).question (s.questions_asked + 1)]
          questions_answered := s.questions_answered + 1
          questions_asked := s.questions_asked + 1 }) ∨
      ((HARDCODED_QUESTION_LIMIT ≤ s.questions_asked ∨ ngf = true) ∧ done = true ∧
        s2 = completeSession { s with
          responses := s.responses.set i (finalizeTurn rd (evaluate_viva_response ev) t)
          questions_answered := s.questions_answered + 1 } now)) := by
  have hown : s.student_id = actor := by
    by_contra hh
    unfold submit_viva_response at h
    rw [if_pos hh] at h
    simp at h
  have hprog : s.status = .in_progress := by
    by_contra hh
    unfold submit_viva_response at h
    rw [if_neg (by simp [hown]), if_pos hh] at h
    simp at h
  cases hfind : findLastPending s.responses with
  | none =>
    unfold submit_viva_response at h
    rw [if_neg (by simp [hown]), if_neg (by simp [hprog]), hfind] at h
    simp at h
  | some p =>
    obtain ⟨i, t⟩ := p
    rw [submit_eq_of_pending rd ev gen ngf now hown hprog hfind] at h
    refine ⟨hown, hprog, i, t, rfl, ?_⟩
    split at h
    · rename_i hc
      simp only [Except.ok.injEq, Prod.mk.injEq] at h
      exact .inl ⟨hc.1, hc.2, h.2.symm, h.1.symm⟩
    · rename_i hc
      simp only [Except.ok.injEq, Prod.mk.injEq] at h
      rw [not_and_or] at hc
      refine .inr ⟨?_, h.2.symm, h.1.symm⟩
      rcases hc with hc | hc
      · exact .inl (by omega)
      · exact .inr (by simpa using hc)

/-- Everything a successful `start_viva_session` tells about its inputs and
output. -/
lemma start_ok_inv {s s2 : VivaSession} {actor now : Nat} {up : Option GenPayload}
    {q : String} (h : start_viva_session s actor up now = .ok (s2, q)) :
    s.student_id = actor ∧ s.status = .scheduled ∧
    q = (generate_viva_question up).question ∧
    s2 = { s with
      status := VivaSessionStatus.in_progress
      started_at := some now
      questions_asked := 1
      responses := s.responses ++
        [newPendingTurn (generate_viva_question up).question 1] } := by
  have hown : s.student_id = actor := by
    by_contra hh
    unfold start_viva_session at h
    rw [if_pos hh] at h
    simp at h
  have hsched : s.status = .scheduled := by
    by_contra hh
    unfold start_viva_session at h
    rw [if_neg (by simp [hown]), if_pos hh] at h
    simp at h
  rw [start_eq_of_scheduled up now hown hsched] at h
  simp only [Except.ok.injEq, Prod.mk.injEq] at h
  exact ⟨hown, hsched, h.2.symm, h.1.symm⟩

/-- The counter relationships maintained by the engine operations in each
lifecycle state. -/
def counterInv (s : VivaSession) : Prop :=
  (s.status = .scheduled → s.questions_asked = 0 ∧ s.questions_answered = 0) ∧
  (s.status = .in_progress → s.questions_answered + 1 = s.questions_asked) ∧
  (s.status = .completed → s.questions_answered = s.questions_asked)

lemma reachable_counterInv (s : VivaSession) (h : Reachable s) : counterInv s := by
  induction h with
  | init student =>
    exact ⟨fun _ => ⟨rfl, rfl⟩, fun hh => by simp [freshSession] at hh,
      fun hh => by simp [freshSession] at hh⟩
  | @start s0 s2 actor now up q hr heq ih =>
    obtain ⟨hown, hsched, hq, hs2⟩ := start_ok_inv heq
    obtain ⟨ha, hb⟩ := ih.1 hsched
    subst hs2
    refine ⟨fun hh => by simp at hh, fun _ => ?_, fun hh => by simp at hh⟩
    show s0.questions_answered + 1 = 1
    omega
  | @submit s0 s2 actor now rd ev gen ngf done hr heq ih =>
    obtain ⟨hown, hprog, i, t, hfind, hrest⟩ := submit_ok_inv heq
    have hgap := ih.2.1 hprog
    rcases hrest with ⟨hlt, hngf, hdone, hs2⟩ | ⟨hcond, hdone, hs2⟩ <;> subst hs2
    · refine ⟨fun hh => ?_, fun _ => ?_, fun hh => ?_⟩
      · simp [hprog] at hh
      · show s0.questions_answered + 1 + 1 = s0.questions_asked + 1
        omega
      · simp [hprog] at hh
    · have hst := completeSession_status { s0 with
        responses := s0.responses.set i (finalizeTurn rd (evaluate_viva_response ev) t)
        questions_answered := s0.questions_answered + 1 } now
      refine ⟨fun hh => ?_, fun hh => ?_, fun _ => ?_⟩
      · rw [hst] at hh; simp at hh
      · rw [hst] at hh; simp at hh
      · rw [completeSession_questions_answered, completeSession_questions_asked]
        show s0.questions_answered + 1 = s0.questions_asked
        omega

/-- The pending-turn bookkeeping maintained when every submitted response
carries text. -/
def pendingInv (s : VivaSession) : Prop :=
  countPending s.responses ≤ 1 ∧
  (s.status = .scheduled → countPending s.responses = 0)

lemma reachableGood_pendingInv (s : VivaSession) (h : ReachableGood s) : pendingInv s := by
  induction h with
  | init student => exact ⟨by simp [freshSession, countPending], fun _ => rfl⟩
  | @start s0 s2 actor now up q hr heq ih =>
    obtain ⟨hown, hsched, hq, hs2⟩ := start_ok_inv heq
    have h0 := ih.2 hsched
    subst hs2
    constructor
    · show countPending (s0.responses ++
          [newPendingTurn (generate_viva_question up).question 1]) ≤ 1
      rw [countPending_append, h0]
      simp [countPending, newPendingTurn]
    · intro hh
      simp at hh
  | @submit s0 s2 actor now rd ev gen ngf done hr hgood heq ih =>
    obtain ⟨hown, hprog, i, t, hfind, hrest⟩ := submit_ok_inv heq
    obtain ⟨hget, hpend⟩ := findLastPending_spec _ _ _ hfind
    have hone := countPending_pos_of_findLastPending _ _ _ hfind
    have hset : countPending (s0.responses.set i
        (finalizeTurn rd (evaluate_viva_response ev) t)) + 1 = countPending s0.responses := by
      refine countPending_set_answered _ _ _ _ hget hpend ?_
      show (finalizeTurn rd (evaluate_viva_response ev) t).response_text.isSome = true
      rw [show (finalizeTurn rd (evaluate_viva_response ev) t).response_text =
        rd.response_text from rfl]
      exact hgood
    rcases hrest with ⟨hlt, hngf, hdone, hs2⟩ | ⟨hcond, hdone, hs2⟩ <;> subst hs2
    · constructor
      · show countPending ((s0.responses.set i (finalizeTurn rd (evaluate_viva_response ev) t)) ++
            [newPendingTurn (generate_viva_question gen).question (s0.questions_asked + 1)]) ≤ 1
        rw [countPending_append]
        have := ih.1
        have hnp : countPending [newPendingTurn
            (generate_viva_question gen).question (s0.questions_asked + 1)] = 1 := rfl
        omega
      · intro hh
        simp [hprog] at hh
    · have hst := completeSession_status { s0 with
        responses := s0.responses.set i (finalizeTurn rd (evaluate_viva_response ev) t)
        questions_answered := s0.questions_answered + 1 } now
      constructor
      · rw [completeSession_responses]
        show countPending (s0.responses.set i (finalizeTurn rd (evaluate_viva_response ev) t)) ≤ 1
        have := ih.1
        omega
      · intro hh
        rw [hst] at hh
        simp at hh

/-- A successful `submit_viva_response` leaves every already-answered turn
untouched, at its position. -/
lemma submit_preserves_answered {s s2 : VivaSession} {actor now : Nat}
    {rd : VivaResponseCreate} {ev : Option EvalPayload} {gen : Option GenPayload}
    {ngf done : Bool}
    (h : submit_viva_response s actor rd ev gen ngf now = .ok (s2, done))
    (i : Nat) (t : VivaTurn) (hget : s.responses[i]? = some t)
    (hsome : t.response_text.isSome) :
    s2.responses[i]? = some t := by
  obtain ⟨_, _, j, u, hfind, hrest⟩ := submit_ok_inv h
  have hij : i ≠ j := submit_answered_turn_ne_pending _ _ _ _ _ hget hsome hfind
  have hlen : i < s.responses.length := (List.getElem?_eq_some_iff.mp hget).1
  rcases hrest with ⟨_, _, _, hs2⟩ | ⟨_, _, hs2⟩ <;> subst hs2
  · show ((s.responses.set j (finalizeTurn rd (evaluate_viva_response ev) u)) ++
        [newPendingTurn (generate_viva_question gen).question (s.questions_asked + 1)])[i]? = some t
    rw [List.getElem?_append_left (by simpa using hlen), List.getElem?_set_ne hij.symm]
    exact hget
  · rw [completeSession_responses]
    show (s.responses.set j (finalizeTurn rd (evaluate_viva_response ev) u))[i]? = some t
    rw [List.getElem?_set_ne hij.symm]
    exact hget

lemma total_score_calc_eq_sum (ts : List VivaTurn) :
    total_score_calc ts = (ts.map fun r => r.score.getD 0).sum := by
  induction ts with
  | nil => rfl
  | cons t ts ih => rw [total_score_calc_cons, ih, List.map_cons, List.sum_cons]

lemma max_possible_calc_eq_sum (ts : List VivaTurn) :
    max_possible_calc ts = (ts.map fun r => r.max_score.getD 0).sum := by
  induction ts with
  | nil => rfl
  | cons t ts ih => rw [max_possible_calc_cons, ih, List.map_cons, List.sum_cons]

/-! ### Result projections for concrete runs -/

/-- Lifecycle state and counters of a successful call result. -/
def runSummary (r : Except ApiError (VivaSession × Bool)) :
    Option (VivaSessionStatus × Nat × Nat) :=
  match r with
  | .ok (s, _) => some (s.status, s.questions_asked, s.questions_answered)
  | .error _ => none

/-- The error of a failed call result. -/
def runError (r : Except ApiError (VivaSession × Bool)) : Option ApiError :=
  match r with
  | .ok _ => none
  | .error e => some e

/-- Number of pending turns in a successful call result. -/
def runPendingCount (r : Except ApiError (VivaSession × Bool)) : Option Nat :=
  match r with
  | .ok (s, _) => some (countPending s.responses)
  | .error _ => none

/-- The state of `freshSession 1` right after a successful Start by student
1 at time 0 with a failed generation upstream. -/
def startedDemoSession : VivaSession :=
  { freshSession 1 with
    status := VivaSessionStatus.in_progress
    started_at := some 0
    questions_asked := 1
    responses := [newPendingTurn fallbackQuestion.question 1] }

/-- An in-progress session with one pending turn awaiting its answer. -/
def demoPendingSession : VivaSession :=
  { student_id := 1, status := VivaSessionStatus.in_progress, questions_asked := 1,
    questions_answered := 0, started_at := some 0,
    responses := [newPendingTurn "Explain your approach." 1] }

/-- A completed session, as left behind by the engine. -/
def completedDemoSession : VivaSession :=
  { student_id := 1, status := VivaSessionStatus.completed, questions_asked := 5,
    questions_answered := 5, started_at := some 5, completed_at := some 10 }

/-- An in-progress session with no turns at all. -/
def emptyLedgerSession : VivaSession :=
  { student_id := 1, status := VivaSessionStatus.in_progress, started_at := some 0 }

/-- A finalized turn carrying all per-dimension scores. -/
def scoredTurn : VivaTurn :=
  { question_text := "Q1", order_index := 1, response_text := some "A1",
    confidence_score := some (4/5), accuracy_score := some (4/5),
    completeness_score := some (4/5), score := some 8, max_score := some 10 }

/-- An in-progress session holding exactly one finalized turn. -/
def oneTurnSession : VivaSession :=
  { student_id := 1, status := VivaSessionStatus.in_progress, questions_asked := 1,
    questions_answered := 1, started_at := some 0, responses := [scoredTurn] }

/-! ### Claims -/

/-- Claim C1 (code_bug evidence): with a fully healthy adapter and the
default configuration (`MAX_VIVA_QUESTIONS = 10`), a session completes
after exactly 5 questions — the hardcoded literal in
`submit_viva_response` — not after `min(configuredMax,
adapterSuccessfulTurns) = 10`; a sixth SubmitResponse is rejected even
though the adapter could produce more questions.  The hardcoded limit does
lie between the configured minimum 3 and maximum 10, which are otherwise
unused. -/
theorem hardcoded_five_question_limit :
    runSummary demoHealthyRun = some (VivaSessionStatus.completed, 5, 5) ∧
    runError demoHealthyRunThenSubmit = some ApiError.badRequest ∧
    HARDCODED_QUESTION_LIMIT = 5 ∧ MAX_VIVA_QUESTIONS = 10 ∧ MIN_VIVA_QUESTIONS = 3 ∧
    HARDCODED_QUESTION_LIMIT ≠ MAX_VIVA_QUESTIONS ∧
    MIN_VIVA_QUESTIONS ≤ HARDCODED_QUESTION_LIMIT ∧
    HARDCODED_QUESTION_LIMIT ≤ MAX_VIVA_QUESTIONS := by
  exact ⟨by decide, by decide, rfl, rfl, rfl, by decide, by decide, by decide⟩

/-- Claim C2: along every sequence of Start and SubmitResponse operations,
`questions_answered ≤ questions_asked` holds after each operation. -/
theorem answered_le_asked_invariant (s : VivaSession) (h : Reachable s) :
    s.questions_answered ≤ s.questions_asked := by
  obtain ⟨h0, h1, h2⟩ := reachable_counterInv s h
  cases hs : s.status with
  | scheduled => have := h0 hs; omega
  | in_progress => have := h1 hs; omega
  | completed => have := h2 hs; omega

/-- Witness for C2 at a concrete reachable state: a freshly started
session. -/
theorem answered_le_asked_invariant_witness :
    startedDemoSession.questions_answered ≤ startedDemoSession.questions_asked :=
  answered_le_asked_invariant startedDemoSession
    (@Reachable.start (freshSession 1) startedDemoSession 1 0 none
      fallbackQuestion.question (Reachable.init 1) rfl)

/-- Claim C3 (counterexample): the request schema admits a null
`response_text`; submitting it marks the answer counters but leaves the
turn pending, so after Start followed by one null-text SubmitResponse the
session holds two pending turns, refuting "at most one Turn of that
session has no response". -/
theorem null_response_two_pending_counterexample :
    runPendingCount nullAnswerRun = some 2 := by decide

/-- Claim C3 (amended): when every submitted response carries text, each
reachable session has at most one pending turn; and independently of that
restriction, a successful SubmitResponse never modifies a turn that
already has a response. -/
theorem single_pending_turn_amended (s : VivaSession) (h : ReachableGood s) :
    countPending s.responses ≤ 1 ∧
    ∀ (actor now : Nat) (rd : VivaResponseCreate) (ev : Option EvalPayload)
      (gen : Option GenPayload) (ngf : Bool) (s2 : VivaSession) (done : Bool),
      submit_viva_response s actor rd ev gen ngf now = .ok (s2, done) →
      ∀ (i : Nat) (t : VivaTurn), s.responses[i]? = some t → t.response_text.isSome →
        s2.responses[i]? = some t := by
  refine ⟨(reachableGood_pendingInv s h).1, ?_⟩
  intro actor now rd ev gen ngf s2 done heq i t hget hsome
  exact submit_preserves_answered heq i t hget hsome

/-- Witness for C3 (amended) at a concrete reachable state. -/
theorem single_pending_turn_amended_witness :
    countPending startedDemoSession.responses ≤ 1 :=
  (single_pending_turn_amended startedDemoSession
    (@ReachableGood.start (freshSession 1) startedDemoSession 1 0 none
      fallbackQuestion.question (ReachableGood.init 1) rfl)).1

/-- Claim C4 (counterexample): `update_viva_session` copies any requested
status onto the session with no transition validation, so it moves a
completed session back to in_progress — a rank regression. -/
theorem update_regresses_completed_counterexample :
    update_viva_session completedDemoSession Role.student 1
      { status := some VivaSessionStatus.in_progress } 11 =
      .ok { completedDemoSession with status := VivaSessionStatus.in_progress } ∧
    statusRank VivaSessionStatus.in_progress < statusRank VivaSessionStatus.completed :=
  ⟨rfl, by decide⟩

/-- Claim C4 (amended): the engine operations Start and SubmitResponse
never regress the lifecycle state along scheduled → in_progress →
completed; the session update endpoint is excluded, as it applies any
requested status unconditionally. -/
theorem engine_transitions_monotonic_amended :
    (∀ (s s2 : VivaSession) (actor now : Nat) (up : Option GenPayload) (q : String),
      start_viva_session s actor up now = .ok (s2, q) →
      statusRank s.status ≤ statusRank s2.status) ∧
    (∀ (s s2 : VivaSession) (actor now : Nat) (rd : VivaResponseCreate)
      (ev : Option EvalPayload) (gen : Option GenPayload) (ngf done : Bool),
      submit_viva_response s actor rd ev gen ngf now = .ok (s2, done) →
      statusRank s.status ≤ statusRank s2.status) := by
  constructor
  · intro s s2 actor now up q h
    obtain ⟨_, hsched, _, hs2⟩ := start_ok_inv h
    subst hs2
    rw [hsched]
    exact Nat.zero_le _
  · intro s s2 actor now rd ev gen ngf done h
    obtain ⟨_, hprog, i, t, hfind, hrest⟩ := submit_ok_inv h
    rcases hrest with ⟨_, _, _, hs2⟩ | ⟨_, _, hs2⟩ <;> subst hs2
    · exact Nat.le_refl _
    · rw [completeSession_status, hprog]
      exact Nat.le_succ 1

/-- Witness for C4 (amended) on a concrete successful Start: scheduled has
rank below in_progress. -/
theorem engine_transitions_monotonic_amended_witness :
    statusRank (freshSession 1).status ≤ statusRank startedDemoSession.status :=
  engine_transitions_monotonic_amended.1 (freshSession 1) startedDemoSession 1 0 none
    fallbackQuestion.question rfl

/-- Claim C5: when the generation upstream fails (transport failure,
timeout, or malformed payload), Start on a scheduled session owned by the
actor still succeeds: the session becomes in_progress with the
deterministic fallback question appended as pending Turn 1, and no error
reaches the caller. -/
theorem start_falls_back_to_canned_question (s : VivaSession) (actor now : Nat)
    (up : Option GenPayload) (hown : s.student_id = actor)
    (hsched : s.status = .scheduled) (hfail : genUpstreamFailed up = true) :
    start_viva_session s actor up now =
      .ok ({ s with
        status := VivaSessionStatus.in_progress
        started_at := some now
        questions_asked := 1
        responses := s.responses ++ [newPendingTurn fallbackQuestion.question 1] },
        fallbackQuestion.question) := by
  rw [start_eq_of_scheduled up now hown hsched, gen_failed_fallback up hfail]

/-- Witness for C5 on a fresh scheduled session with a transport
failure. -/
theorem start_falls_back_to_canned_question_witness :
    start_viva_session (freshSession 1) 1 none 0 =
      .ok ({ freshSession 1 with
        status := VivaSessionStatus.in_progress
        started_at := some 0
        questions_asked := 1
        responses := (freshSession 1).responses ++
          [newPendingTurn fallbackQuestion.question 1] },
        fallbackQuestion.question) :=
  start_falls_back_to_canned_question (freshSession 1) 1 0 none rfl rfl rfl

/-- Claim C6: when the evaluation upstream fails, SubmitResponse on an
in-progress session with a pending turn still succeeds; the pending turn
is finalized with the neutral fallback evaluation — raw score 7 out of a
max score of 10 — and the call still proceeds to the continuation
decision (continuing exactly when the question count is below the limit
and next-question generation does not fail). -/
theorem eval_failure_neutral_score (s : VivaSession) (actor now : Nat)
    (rd : VivaResponseCreate) (gen : Option GenPayload) (ngf : Bool)
    (i : Nat) (t : VivaTurn)
    (hown : s.student_id = actor) (hprog : s.status = .in_progress)
    (hfind : findLastPending s.responses = some (i, t)) :
    ∃ (s2 : VivaSession) (done : Bool),
      submit_viva_response s actor rd none gen ngf now = .ok (s2, done) ∧
      s2.responses[i]? = some (finalizeTurn rd fallbackEvaluation t) ∧
      (finalizeTurn rd fallbackEvaluation t).score = some 7 ∧
      (finalizeTurn rd fallbackEvaluation t).max_score = some 10 ∧
      (done = false ↔ s.questions_asked < HARDCODED_QUESTION_LIMIT ∧ ngf = false) := by
  have hlen : i < s.responses.length := findLastPending_lt_length _ _ _ hfind
  have hscore : (finalizeTurn rd fallbackEvaluation t).score = some 7 := by
    show some ((fallbackEvaluation.overall_score.getD 0) * 10) = some 7
    norm_num [fallbackEvaluation]
  rw [submit_eq_of_pending rd none gen ngf now hown hprog hfind]
  by_cases hc : s.questions_asked < HARDCODED_QUESTION_LIMIT ∧ ngf = false
  · rw [if_pos hc]
    refine ⟨_, _, rfl, ?_, hscore, rfl, by simp [hc]⟩
    show ((s.responses.set i (finalizeTurn rd (evaluate_viva_response none) t)) ++
      [newPendingTurn (generate_viva_question gen).question (s.questions_asked + 1)])[i]? =
      some (finalizeTurn rd fallbackEvaluation t)
    rw [List.getElem?_append_left (by simpa using hlen),
      List.getElem?_set_eq_of_lt _ hlen]
    rfl
  · rw [if_neg hc]
    refine ⟨_, _, rfl, ?_, hscore, rfl, by simp [hc]⟩
    rw [completeSession_responses]
    show (s.responses.set i (finalizeTurn rd (evaluate_viva_response none) t))[i]? =
      some (finalizeTurn rd fallbackEvaluation t)
    rw [List.getElem?_set_eq_of_lt _ hlen]
    rfl

/-- Witness for C6 on a concrete in-progress session with one pending
turn. -/
theorem eval_failure_neutral_score_witness :
    ∃ (s2 : VivaSession) (done : Bool),
      submit_viva_response demoPendingSession 1 demoAnswer none none false 0 =
        .ok (s2, done) ∧
      s2.responses[0]? =
        some (finalizeTurn demoAnswer fallbackEvaluation
          (newPendingTurn "Explain your approach." 1)) ∧
      (finalizeTurn demoAnswer fallbackEvaluation
        (newPendingTurn "Explain your approach." 1)).score = some 7 ∧
      (finalizeTurn demoAnswer fallbackEvaluation
        (newPendingTurn "Explain your approach." 1)).max_score = some 10 ∧
      (done = false ↔
        demoPendingSession.questions_asked < HARDCODED_QUESTION_LIMIT ∧ false = false) :=
  eval_failure_neutral_score demoPendingSession 1 0 demoAnswer none false 0
    (newPendingTurn "Explain your approach." 1) rfl rfl rfl

/-- Claim C7 (counterexample): a parsed evaluation payload with every score
present but far outside [0,1] — and likewise one with all scores absent —
is returned by the adapter as-is, not replaced by the deterministic
fallback it uses for a transport failure. -/
theorem evaluation_payload_unvalidated_counterexample :
    evaluate_viva_response (some malformedEvalPayload) = malformedEvalPayload ∧
    (evaluate_viva_response (some malformedEvalPayload)).feedback ≠
      fallbackEvaluation.feedback ∧
    (evaluate_viva_response (some malformedEvalPayload)).accuracy_score = some 5 ∧
    ¬ (5 : ℚ) ≤ 1 ∧
    evaluate_viva_response (some ({ } : EvalPayload)) = ({ } : EvalPayload) ∧
    ({ } : EvalPayload).overall_score = none ∧
    fallbackEvaluation.overall_score.isSome = true ∧
    evaluate_viva_response none = fallbackEvaluation :=
  ⟨rfl, by decide, rfl, by norm_num, rfl, rfl, rfl, rfl⟩

/-- Claim C7 (amended): for question generation, a transport failure or a
payload with a missing required key yields the fallback question; for
evaluation, only a transport/parse failure yields the fallback — any
successfully parsed payload is returned without shape or range
validation. -/
theorem adapter_validation_amended :
    (∀ up : Option GenPayload, genUpstreamFailed up = true →
      generate_viva_question up = fallbackQuestion) ∧
    (∀ p : EvalPayload, evaluate_viva_response (some p) = p) ∧
    evaluate_viva_response none = fallbackEvaluation :=
  ⟨gen_failed_fallback, fun _ => rfl, rfl⟩

/-- Witness for C7 (amended) on a payload missing the question text. -/
theorem adapter_validation_amended_witness :
    generate_viva_question (some ({ question := none } : GenPayload)) = fallbackQuestion :=
  adapter_validation_amended.1 (some ({ question := none } : GenPayload)) rfl

/-- Claim C8: the aggregation computes `total_score` as the sum of
per-turn scores and `max_possible_score` as the sum of per-turn max
scores (absent values contributing 0); on the two-turn ledger with scores
7/10 and 8/10 it yields 15 and 20.  It is a pure function of the turn
list. -/
theorem aggregator_sums_scores :
    (∀ ts : List VivaTurn,
      total_score_calc ts = (ts.map fun r => r.score.getD 0).sum ∧
      max_possible_calc ts = (ts.map fun r => r.max_score.getD 0).sum) ∧
    total_score_calc exampleTurns = 15 ∧ max_possible_calc exampleTurns = 20 := by
  refine ⟨fun ts => ⟨total_score_calc_eq_sum ts, max_possible_calc_eq_sum ts⟩, ?_, ?_⟩
  · rw [total_score_calc_eq_sum]
    norm_num [exampleTurns]
  · rw [max_possible_calc_eq_sum]
    norm_num [exampleTurns]

/-- Claim C9 (counterexample): completing over an empty turn list sets
`total_score` and `max_possible_score` to 0 — they do not stay
unset/None as the claim requires for every aggregate. -/
theorem empty_ledger_zero_totals_counterexample :
    (completeSession emptyLedgerSession 3).total_score = some 0 ∧
    (completeSession emptyLedgerSession 3).max_possible_score = some 0 ∧
    (completeSession emptyLedgerSession 3).total_score.isSome = true ∧
    (completeSession emptyLedgerSession 3).max_possible_score.isSome = true :=
  ⟨rfl, rfl, rfl, rfl⟩

/-- Claim C9 (amended): over an empty turn list the aggregation sets
`total_score = 0` and `max_possible_score = 0`, while the three
per-dimension averages are left untouched (hence unset for a session
never completed before) and no division is performed. -/
theorem empty_ledger_aggregates_amended (s : VivaSession) (now : Nat)
    (h : s.responses = []) :
    (completeSession s now).total_score = some 0 ∧
    (completeSession s now).max_possible_score = some 0 ∧
    (completeSession s now).overall_confidence_score = s.overall_confidence_score ∧
    (completeSession s now).communication_score = s.communication_score ∧
    (completeSession s now).technical_accuracy_score = s.technical_accuracy_score := by
  unfold completeSession
  rw [if_pos (by simp [h]), h]
  exact ⟨rfl, rfl, rfl, rfl, rfl⟩

/-- Witness for C9 (amended) on a concrete empty-ledger session. -/
theorem empty_ledger_aggregates_amended_witness :
    (completeSession emptyLedgerSession 7).total_score = some 0 ∧
    (completeSession emptyLedgerSession 7).max_possible_score = some 0 ∧
    (completeSession emptyLedgerSession 7).overall_confidence_score =
      emptyLedgerSession.overall_confidence_score ∧
    (completeSession emptyLedgerSession 7).communication_score =
      emptyLedgerSession.communication_score ∧
    (completeSession emptyLedgerSession 7).technical_accuracy_score =
      emptyLedgerSession.technical_accuracy_score :=
  empty_ledger_aggregates_amended emptyLedgerSession 7 rfl

/-- Claim C10: completing over a non-empty turn list assigns
`communication_score` and `overall_confidence_score` the very same value:
the arithmetic mean of the per-turn confidence scores with absent values
counted as 0 — the communication dimension is never a distinct
measurement. -/
theorem communication_equals_confidence (s : VivaSession) (now : Nat)
    (h : s.responses ≠ []) :
    (completeSession s now).communication_score =
      (completeSession s now).overall_confidence_score ∧
    (completeSession s now).communication_score =
      some ((s.responses.map fun r => r.confidence_score.getD 0).sum /
        s.responses.length) := by
  unfold completeSession
  rw [if_neg (by simp [h])]
  exact ⟨rfl, rfl⟩

/-- Witness for C10 on a concrete one-turn session. -/
theorem communication_equals_confidence_witness :
    (completeSession oneTurnSession 9).communication_score =
      (completeSession oneTurnSession 9).overall_confidence_score ∧
    (completeSession oneTurnSession 9).communication_score =
      some ((oneTurnSession.responses.map fun r => r.confidence_score.getD 0).sum /
        oneTurnSession.responses.length) :=
  communication_equals_confidence oneTurnSession 9 (by decide)

end AssignCheck
